import Mathlib

/-!
Shallow embedding of the `ma-long` trading bot's decision core
(`src/risk_manager.py` and `src/strategy.py`) over exact rationals,
together with theorems settling the specification's claims about the
signal evaluator and the position manager.

Prices, sizes and indicator values are modelled as `ℚ`; Python's `None`
becomes `Option`; a Python function that can raise becomes a function
into `Option`.
-/

namespace MaLong

/-- Position side, from the `side` strings `"long"` / `"short"`. -/
inductive Side where
  | long
  | short
deriving DecidableEq, Repr

/-- Lifecycle action returned by `RiskManager.update_position`:
`None`, `"stop_loss"`, `"tp1"`, `"tp2"` or `"trailing_stop"`. -/
inductive Action where
  | stop_loss
  | tp1
  | tp2
  | trailing_stop
deriving DecidableEq, Repr

/-- The position dictionary manipulated by `RiskManager`.  Nullable
entries (`tp1`, `tp2`, `trailing_stop`) are `Option ℚ`.  `risk_amount`
is the key read by `calculate_pnl`. -/
structure Position where
  side : Side
  entry_price : ℚ
  stop_loss : ℚ
  position_size : ℚ
  remaining_size : ℚ
  tp1 : Option ℚ
  tp1_percent : ℚ
  tp2 : Option ℚ
  tp2_percent : ℚ
  trailing_stop : Option ℚ
  risk_amount : ℚ
deriving DecidableEq, Repr

/-- The `RiskManager` configuration fields used by the claims. -/
structure RMConfig where
  sl_atr_multiplier : ℚ := 3/2
  tp1_rr : ℚ := 1
  tp1_percent : ℚ := 30
  tp2_rr : ℚ := 2
  tp2_percent : ℚ := 40
  trailing_atr_multiplier : ℚ := 1
deriving DecidableEq, Repr

/-- Python truthiness of a nullable float: `None` and `0.0` are falsy. -/
def pyTruthy : Option ℚ → Bool
  | none => false
  | some v => v ≠ 0

/-- `RiskManager.check_stop_loss_hit`. -/
def check_stop_loss_hit (current_price stop_loss : ℚ) (side : Side) : Bool :=
  match side with
  | .long => current_price ≤ stop_loss
  | .short => stop_loss ≤ current_price

/-- `RiskManager.check_take_profit_hit`. -/
def check_take_profit_hit (current_price take_profit : ℚ) (side : Side) : Bool :=
  match side with
  | .long => take_profit ≤ current_price
  | .short => current_price ≤ take_profit

/-- `RiskManager.calculate_trailing_stop`. -/
def calculate_trailing_stop (rm : RMConfig) (entry_price current_price atr : ℚ)
    (side : Side) (current_trailing_stop : Option ℚ) : ℚ :=
  let trailing_distance := atr * rm.trailing_atr_multiplier
  match side with
  | .long =>
    let new_trailing_stop := current_price - trailing_distance
    match current_trailing_stop with
    | none =>
      if entry_price < current_price then max new_trailing_stop entry_price
      else entry_price
    | some cts => max new_trailing_stop cts
  | .short =>
    let new_trailing_stop := current_price + trailing_distance
    match current_trailing_stop with
    | none =>
      if current_price < entry_price then min new_trailing_stop entry_price
      else entry_price
    | some cts => min new_trailing_stop cts

/-- The TP1 block of `RiskManager.update_position` (lines 270-281):
close the TP1 portion, disarm TP1, move the stop to breakeven. -/
def tp1Step (p : Position) (current_price : ℚ) : Position × Option Action :=
  if pyTruthy p.tp1 ∧ 0 < p.tp1_percent then
    if check_take_profit_hit current_price (p.tp1.getD 0) p.side then
      ({ p with
          remaining_size := p.remaining_size - p.position_size * (p.tp1_percent / 100),
          tp1 := none,
          tp1_percent := 0,
          stop_loss := p.entry_price },
        some Action.tp1)
    else (p, none)
  else (p, none)

/-- The TP2 block of `RiskManager.update_position` (lines 283-292):
close the TP2 portion, disarm TP2; the action is set only when no
earlier action was. -/
def tp2Step (p : Position) (current_price : ℚ) (action : Option Action) :
    Position × Option Action :=
  if pyTruthy p.tp2 ∧ 0 < p.tp2_percent then
    if check_take_profit_hit current_price (p.tp2.getD 0) p.side then
      ({ p with
          remaining_size := p.remaining_size - p.position_size * (p.tp2_percent / 100),
          tp2 := none,
          tp2_percent := 0 },
        if action = none then some Action.tp2 else action)
    else (p, action)
  else (p, action)

/-- The trailing-stop block of `RiskManager.update_position`
(lines 294-308): refresh the trailing stop for the remaining position
and report a hit when no earlier action was set. -/
def trailStep (rm : RMConfig) (p : Position) (current_price atr : ℚ)
    (action : Option Action) : Position × Option Action :=
  if 0 < p.remaining_size then
    let ts := calculate_trailing_stop rm p.entry_price current_price atr p.side p.trailing_stop
    let p' := { p with trailing_stop := some ts }
    if check_stop_loss_hit current_price ts p.side ∧ action = none then
      (p', some Action.trailing_stop)
    else (p', action)
  else (p, action)

/-- `RiskManager.update_position`: stop-loss short-circuits, then TP1,
TP2 and the trailing-stop update run in order. -/
def update_position (rm : RMConfig) (p : Position) (current_price atr : ℚ) :
    Position × Option Action :=
  if check_stop_loss_hit current_price p.stop_loss p.side then
    (p, some Action.stop_loss)
  else
    let s1 := tp1Step p current_price
    let s2 := tp2Step s1.1 current_price s1.2
    trailStep rm s2.1 current_price atr s2.2

/-- Result record of `RiskManager.calculate_pnl`. -/
structure PnLInfo where
  pnl : ℚ
  pnl_percent : ℚ
  rr_achieved : ℚ
  remaining_size : ℚ
deriving DecidableEq, Repr

/-- `RiskManager.calculate_pnl`. -/
def calculate_pnl (p : Position) (current_price : ℚ) : PnLInfo :=
  let pnl :=
    match p.side with
    | .long => (current_price - p.entry_price) * p.remaining_size
    | .short => (p.entry_price - current_price) * p.remaining_size
  let pnl_percent := if 0 < p.risk_amount then pnl / p.risk_amount * 100 else 0
  let risk := |p.entry_price - p.stop_loss|
  let reward := |current_price - p.entry_price|
  let rr_achieved := if 0 < risk then reward / risk else 0
  { pnl := pnl
    pnl_percent := pnl_percent
    rr_achieved := rr_achieved
    remaining_size := p.remaining_size }

/-- One indicator-annotated candle row (`df.iloc[-1]`).  `volume` and
`volume_ma` are `Option` because the code reads them with
`latest.get(..., default)`. -/
structure Row where
  close : ℚ
  ema_short : ℚ
  ema_long : ℚ
  rsi : ℚ
  adx : ℚ
  atr : ℚ
  volume : Option ℚ := none
  volume_ma : Option ℚ := none
deriving DecidableEq, Repr

/-- The indicator DataFrame: its rows plus whether a `volume` column
exists (`'volume' in df.columns`). -/
structure DFrame where
  rows : List Row
  has_volume_col : Bool := true
deriving DecidableEq, Repr

/-- The `TradingStrategy` configuration fields used by
`check_long_entry` and `recalculate_with_live_price`. -/
structure StrategyConfig where
  ema_long : ℕ := 21
  rsi_length : ℕ := 14
  rsi_min : ℚ := 40
  rsi_max : ℚ := 70
  adx_threshold : ℚ := 25
  atr_period : ℕ := 14
  use_volume_filter : Bool := true
  volume_ma_period : ℕ := 20
  max_usdt_per_trade : ℚ := 0
  sl_atr_multiplier : ℚ := 3/2
  tp1_rr : ℚ := 1
  tp2_rr : ℚ := 2
  entry_1_percent : ℚ := 30
  entry_2_percent : ℚ := 70
deriving DecidableEq, Repr

/-- One entry leg of the scale-in plan (`details['entry_1']` /
`details['entry_2']`). -/
structure EntryLeg where
  price : ℚ
  position_size : ℚ
  stop_loss : ℚ
  take_profit : ℚ
  risk_reward : ℚ
deriving DecidableEq, Repr

/-- The `details` dictionary built by `check_long_entry` and extended by
`recalculate_with_live_price`.  Keys the code may leave absent are
`Option` (or keep their listed default). -/
structure Details where
  price : ℚ := 0
  ema_short : ℚ := 0
  ema_long : ℚ := 0
  rsi : ℚ := 0
  adx : ℚ := 0
  atr : ℚ := 0
  volume : ℚ := 0
  volume_ma : ℚ := 0
  ema_aligned : Bool := false
  rsi_valid : Bool := false
  adx_valid : Bool := false
  volume_valid : Bool := false
  volume_ratio : ℚ := 0
  signal : Bool := false
  reason : String := ""
  entry_1 : Option EntryLeg := none
  entry_2 : Option EntryLeg := none
  warning : Option String := none
  entry_status : Option String := none
  live_price : Option ℚ := none
  last_candle_price : Option ℚ := none
  price_change_pct : Option ℚ := none
deriving DecidableEq, Repr

/-- The warm-up length
`max(self.ema_long, self.rsi_length, self.atr_period, self.volume_ma_period)`. -/
def warmup (cfg : StrategyConfig) : ℕ :=
  max (max cfg.ema_long cfg.rsi_length) (max cfg.atr_period cfg.volume_ma_period)

/-- Condition 1 of `check_long_entry`:
`close > ema_short and ema_short > ema_long`. -/
def emaCondB (latest : Row) : Bool :=
  decide (latest.ema_short < latest.close) &&
    decide (latest.ema_long < latest.ema_short)

/-- Condition 2 of `check_long_entry`: `rsi_min <= rsi <= rsi_max`. -/
def rsiCondB (cfg : StrategyConfig) (latest : Row) : Bool :=
  decide (cfg.rsi_min ≤ latest.rsi) && decide (latest.rsi ≤ cfg.rsi_max)

/-- Condition 3 of `check_long_entry`: `adx >= adx_threshold`. -/
def adxCondB (cfg : StrategyConfig) (latest : Row) : Bool :=
  decide (cfg.adx_threshold ≤ latest.adx)

/-- Condition 4 of `check_long_entry` (volume filter) together with the
`volume_ratio` diagnostic; the filter is skipped when disabled or when
the frame has no `volume` column. -/
def volCondPair (cfg : StrategyConfig) (df : DFrame) (latest : Row) :
    Bool × ℚ :=
  if cfg.use_volume_filter && df.has_volume_col then
    let volume_ma := latest.volume_ma.getD 1
    let volume_ratio :=
      if 0 < volume_ma then latest.volume.getD 0 / volume_ma else 0
    (decide (volume_ma ≤ latest.volume.getD 0), volume_ratio)
  else (true, 0)

/-- `entry_signal`: the AND of the four entry conditions. -/
def entrySignalB (cfg : StrategyConfig) (df : DFrame) (latest : Row) : Bool :=
  emaCondB latest && rsiCondB cfg latest && adxCondB cfg latest &&
    (volCondPair cfg df latest).1

/-- The diagnostic part of the `details` dictionary, filled before the
entry legs. -/
def mkDetailsBase (cfg : StrategyConfig) (df : DFrame) (latest : Row) :
    Details :=
  { price := latest.close
    ema_short := latest.ema_short
    ema_long := latest.ema_long
    rsi := latest.rsi
    adx := latest.adx
    atr := latest.atr
    volume := latest.volume.getD 0
    volume_ma := latest.volume_ma.getD 0
    ema_aligned := emaCondB latest
    rsi_valid := rsiCondB cfg latest
    adx_valid := adxCondB cfg latest
    volume_valid := (volCondPair cfg df latest).1
    volume_ratio := (volCondPair cfg df latest).2
    signal := entrySignalB cfg df latest }

/-- The shared stop of both legs:
`ema_long − atr × sl_atr_multiplier`. -/
def sharedStop (cfg : StrategyConfig) (latest : Row) : ℚ :=
  latest.ema_long - latest.atr * cfg.sl_atr_multiplier

/-- Entry-1 of the scale-in plan: priced at the short EMA,
`entry_1_percent` of the USDT-allocation size, TP at `tp1_rr`. -/
def entryLeg1 (cfg : StrategyConfig) (latest : Row) : EntryLeg :=
  let max_position_size := cfg.max_usdt_per_trade / latest.close
  let entry_1_price := latest.ema_short
  let stop_loss := sharedStop cfg latest
  { price := entry_1_price
    position_size := max_position_size * (cfg.entry_1_percent / 100)
    stop_loss := stop_loss
    take_profit := entry_1_price + (entry_1_price - stop_loss) * cfg.tp1_rr
    risk_reward := cfg.tp1_rr }

/-- Entry-2 of the scale-in plan: priced at the long EMA,
`entry_2_percent` of the USDT-allocation size, TP at `tp2_rr`. -/
def entryLeg2 (cfg : StrategyConfig) (latest : Row) : EntryLeg :=
  let max_position_size := cfg.max_usdt_per_trade / latest.close
  let entry_2_price := latest.ema_long
  let stop_loss := sharedStop cfg latest
  { price := entry_2_price
    position_size := max_position_size * (cfg.entry_2_percent / 100)
    stop_loss := stop_loss
    take_profit := entry_2_price + (entry_2_price - stop_loss) * cfg.tp2_rr
    risk_reward := cfg.tp2_rr }

/-- The all-zero leg stored when the signal does not trigger. -/
def zeroLeg : EntryLeg :=
  { price := 0, position_size := 0, stop_loss := 0, take_profit := 0,
    risk_reward := 0 }

/-- `TradingStrategy.check_long_entry`.  Returns `none` exactly where
the Python code would raise (an `iloc[-1]` on an empty frame that
passed the warm-up guard).  Otherwise `some (entry_signal, details)`,
mirroring the function's `(bool, dict)` result. -/
def check_long_entry (cfg : StrategyConfig) (df : DFrame) :
    Option (Bool × Details) :=
  if df.rows.length < warmup cfg then
    some (false, { reason := "Insufficient data" })
  else
    match df.rows.getLast? with
    | none => none
    | some latest =>
      let details := mkDetailsBase cfg df latest
      if entrySignalB cfg df latest then
        if cfg.max_usdt_per_trade ≤ 0 then
          some (false,
            { details with
                reason := "MAX_USDT_PER_TRADE must be > 0 in .env file" })
        else
          some (true,
            { details with
                entry_1 := some (entryLeg1 cfg latest)
                entry_2 := some (entryLeg2 cfg latest)
                reason := "All entry conditions met" })
      else
        some (false,
          { details with
              entry_1 := some zeroLeg
              entry_2 := some zeroLeg
              reason := "Trade analysis not available: Failed: EMA alignment, RSI, Volume" })

/-- Entry-zone string for a pullback to support. -/
def inZoneMsg : String := "In entry zone (pullback to support)"

/-- Entry-zone string for a slight premium over the short EMA. -/
def nearZoneMsg : String := "Near entry zone (slight premium)"

/-- Entry-zone string for chasing above the zone. -/
def aboveZoneMsg : String := "Above entry zone (chasing risk - consider waiting)"

/-- Volatility-warning string (the Python message interpolates the
percentage; the model keeps the fixed text). -/
def volatilityMsg : String := "Price moved since last candle. High volatility!"

/-- `TradingStrategy.recalculate_with_live_price`: annotate a decision
with live-price information; never recompute the entry legs. -/
def recalculate_with_live_price (latest : Row) (details : Details)
    (live_price : ℚ) : Details :=
  let price_change_pct := (live_price - latest.close) / latest.close * 100
  let d1 :=
    if 5 < |price_change_pct| then { details with warning := some volatilityMsg }
    else details
  let entry_status :=
    if live_price < latest.ema_short then inZoneMsg
    else if live_price < latest.ema_short * (102 / 100) then nearZoneMsg
    else aboveZoneMsg
  { d1 with
      entry_status := some entry_status
      live_price := some live_price
      last_candle_price := some latest.close
      price_change_pct := some price_change_pct }

/-- Folding `calculate_trailing_stop` (long side) over a price/ATR
sequence, starting from a stored trailing stop. -/
def trailSeqQ (rm : RMConfig) (entry : ℚ) : ℚ → List (ℚ × ℚ) → ℚ
  | t, [] => t
  | t, (price, atr) :: rest =>
      trailSeqQ rm entry
        (calculate_trailing_stop rm entry price atr Side.long (some t)) rest

/-- Sample long position with both take-profit tiers armed. -/
def posA : Position :=
  { side := Side.long, entry_price := 100, stop_loss := 90,
    position_size := 1, remaining_size := 1,
    tp1 := some 110, tp1_percent := 30,
    tp2 := some 120, tp2_percent := 40,
    trailing_stop := none, risk_amount := 10 }

/-- Sample long position after TP1/TP2, with a stored trailing stop. -/
def posB : Position :=
  { side := Side.long, entry_price := 100, stop_loss := 100,
    position_size := 1, remaining_size := 3/10,
    tp1 := none, tp1_percent := 0,
    tp2 := none, tp2_percent := 0,
    trailing_stop := some 95, risk_amount := 10 }

/-- The spec's worked example candle for C3. -/
def rowW : Row :=
  { close := 150, ema_short := 148, ema_long := 145, rsi := 55, adx := 30,
    atr := 5/2, volume := some 25000, volume_ma := some 20000 }

/-- Configuration for the worked example (all warm-up periods set to 1
so a single candle passes the guard; allocation 1000 USDT). -/
def cfgW : StrategyConfig :=
  { ema_long := 1, rsi_length := 1, atr_period := 1, volume_ma_period := 1,
    max_usdt_per_trade := 1000 }

/-- Configuration like `cfgW` but with the default (zero) allocation. -/
def cfgZ : StrategyConfig :=
  { ema_long := 1, rsi_length := 1, atr_period := 1, volume_ma_period := 1 }

/-- Candle row used for the C9 entry-zone boundary analysis. -/
def rowZ : Row :=
  { close := 100, ema_short := 100, ema_long := 95, rsi := 50, adx := 30,
    atr := 1 }

/-! ### Step lemmas about `update_position` -/

/-- The TP1 block fires exactly when TP1 is armed and hit, producing
the breakeven-protected position and the `tp1` action. -/
theorem tp1Step_fires (p : Position) (price : ℚ)
    (h1 : pyTruthy p.tp1 = true) (h2 : 0 < p.tp1_percent)
    (h3 : check_take_profit_hit price (p.tp1.getD 0) p.side = true) :
    tp1Step p price =
      ({ p with
          remaining_size := p.remaining_size - p.position_size * (p.tp1_percent / 100),
          tp1 := none,
          tp1_percent := 0,
          stop_loss := p.entry_price },
        some Action.tp1) := by
  unfold tp1Step
  rw [if_pos ⟨h1, h2⟩, if_pos h3]

/-- The TP1 block leaves the position and action untouched when TP1 is
not armed or not hit. -/
theorem tp1Step_skip (p : Position) (price : ℚ)
    (h : ¬(pyTruthy p.tp1 = true ∧ 0 < p.tp1_percent ∧
        check_take_profit_hit price (p.tp1.getD 0) p.side = true)) :
    tp1Step p price = (p, none) := by
  unfold tp1Step
  by_cases h1 : pyTruthy p.tp1 = true ∧ 0 < p.tp1_percent
  · rw [if_pos h1, if_neg]
    intro h3
    exact h ⟨h1.1, h1.2, h3⟩
  · rw [if_neg h1]

/-- The TP2 block fires exactly when TP2 is armed and hit; an already
set action is preserved. -/
theorem tp2Step_fires (p : Position) (price : ℚ) (action : Option Action)
    (h1 : pyTruthy p.tp2 = true) (h2 : 0 < p.tp2_percent)
    (h3 : check_take_profit_hit price (p.tp2.getD 0) p.side = true) :
    tp2Step p price action =
      ({ p with
          remaining_size := p.remaining_size - p.position_size * (p.tp2_percent / 100),
          tp2 := none,
          tp2_percent := 0 },
        if action = none then some Action.tp2 else action) := by
  unfold tp2Step
  rw [if_pos ⟨h1, h2⟩, if_pos h3]

/-- The TP2 block leaves the position and action untouched when TP2 is
not armed or not hit. -/
theorem tp2Step_skip (p : Position) (price : ℚ) (action : Option Action)
    (h : ¬(pyTruthy p.tp2 = true ∧ 0 < p.tp2_percent ∧
        check_take_profit_hit price (p.tp2.getD 0) p.side = true)) :
    tp2Step p price action = (p, action) := by
  unfold tp2Step
  by_cases h1 : pyTruthy p.tp2 = true ∧ 0 < p.tp2_percent
  · rw [if_pos h1, if_neg]
    intro h3
    exact h ⟨h1.1, h1.2, h3⟩
  · rw [if_neg h1]

/-- The TP1 block never touches `entry_price`, `position_size` or
`trailing_stop`. -/
theorem tp1Step_frame (p : Position) (price : ℚ) :
    (tp1Step p price).1.entry_price = p.entry_price ∧
    (tp1Step p price).1.position_size = p.position_size ∧
    (tp1Step p price).1.trailing_stop = p.trailing_stop ∧
    (tp1Step p price).1.side = p.side := by
  unfold tp1Step
  split
  · split
    · exact ⟨rfl, rfl, rfl, rfl⟩
    · exact ⟨rfl, rfl, rfl, rfl⟩
  · exact ⟨rfl, rfl, rfl, rfl⟩

/-- The TP2 block never touches `entry_price`, `position_size` or
`trailing_stop`. -/
theorem tp2Step_frame (p : Position) (price : ℚ) (action : Option Action) :
    (tp2Step p price action).1.entry_price = p.entry_price ∧
    (tp2Step p price action).1.position_size = p.position_size ∧
    (tp2Step p price action).1.trailing_stop = p.trailing_stop ∧
    (tp2Step p price action).1.side = p.side := by
  unfold tp2Step
  split
  · split
    · exact ⟨rfl, rfl, rfl, rfl⟩
    · exact ⟨rfl, rfl, rfl, rfl⟩
  · exact ⟨rfl, rfl, rfl, rfl⟩

/-- An action already set before the TP2 block survives it. -/
theorem tp2Step_keeps_action (p : Position) (price : ℚ) (a : Action) :
    (tp2Step p price (some a)).2 = some a := by
  unfold tp2Step
  split
  · split
    · simp
    · rfl
  · rfl

/-- An action already set before the trailing block survives it. -/
theorem trailStep_keeps_action (rm : RMConfig) (p : Position) (price atr : ℚ)
    (a : Action) :
    (trailStep rm p price atr (some a)).2 = some a := by
  unfold trailStep
  split
  · simp
  · rfl

/-- For a long position the trailing level only moves up from an
existing trailing stop. -/
theorem calc_trail_long_mono (rm : RMConfig) (entry price atr t : ℚ) :
    t ≤ calculate_trailing_stop rm entry price atr Side.long (some t) := by
  unfold calculate_trailing_stop
  exact le_max_right _ _

/-- For a long position a freshly created trailing stop is floored at
the entry price. -/
theorem calc_trail_long_floor (rm : RMConfig) (entry price atr : ℚ) :
    entry ≤ calculate_trailing_stop rm entry price atr Side.long none := by
  unfold calculate_trailing_stop
  dsimp only
  split
  · exact le_max_right _ _
  · exact le_refl _

/-- A fold of long trailing-stop updates never decreases the stored
level. -/
theorem trailSeqQ_mono (rm : RMConfig) (entry : ℚ) (l : List (ℚ × ℚ)) (t : ℚ) :
    t ≤ trailSeqQ rm entry t l := by
  induction l generalizing t with
  | nil => exact le_refl t
  | cons pa rest ih =>
    calc t ≤ calculate_trailing_stop rm entry pa.1 pa.2 Side.long (some t) :=
          calc_trail_long_mono rm entry pa.1 pa.2 t
    _ ≤ _ := by
          have := ih (calculate_trailing_stop rm entry pa.1 pa.2 Side.long (some t))
          simpa [trailSeqQ] using this

/-- The trailing block either keeps the stored trailing stop or
replaces it with a freshly computed level. -/
theorem trailStep_trail_shape (rm : RMConfig) (p : Position) (price atr : ℚ)
    (action : Option Action) :
    (trailStep rm p price atr action).1.trailing_stop = p.trailing_stop ∨
    (trailStep rm p price atr action).1.trailing_stop =
      some (calculate_trailing_stop rm p.entry_price price atr p.side
        p.trailing_stop) := by
  unfold trailStep
  split
  · dsimp only
    split
    · exact Or.inr rfl
    · exact Or.inr rfl
  · exact Or.inl rfl

/-- `update_position` either keeps the stored trailing stop or replaces
it with `calculate_trailing_stop` applied to that stored value. -/
theorem update_position_trail_shape (rm : RMConfig) (p : Position)
    (price atr : ℚ) :
    (update_position rm p price atr).1.trailing_stop = p.trailing_stop ∨
    (update_position rm p price atr).1.trailing_stop =
      some (calculate_trailing_stop rm p.entry_price price atr p.side
        p.trailing_stop) := by
  unfold update_position
  split
  · exact Or.inl rfl
  · dsimp only
    obtain ⟨he1, -, ht1, hs1⟩ := tp1Step_frame p price
    obtain ⟨he2, -, ht2, hs2⟩ :=
      tp2Step_frame (tp1Step p price).1 price (tp1Step p price).2
    rcases trailStep_trail_shape rm
        (tp2Step (tp1Step p price).1 price (tp1Step p price).2).1 price atr
        (tp2Step (tp1Step p price).1 price (tp1Step p price).2).2 with h | h
    · exact Or.inl (h.trans (ht2.trans ht1))
    · refine Or.inr ?_
      rw [h, he2, he1, ht2, ht1, hs2, hs1]

/-- With no earlier action, the trailing block emits either nothing or
`trailing_stop`. -/
theorem trailStep_none_shape (rm : RMConfig) (p : Position) (price atr : ℚ) :
    (trailStep rm p price atr none).2 = none ∨
    (trailStep rm p price atr none).2 = some Action.trailing_stop := by
  unfold trailStep
  split
  · dsimp only
    split
    · exact Or.inr rfl
    · exact Or.inl rfl
  · exact Or.inl rfl

/-- The trailing block never touches any field other than
`trailing_stop`. -/
theorem trailStep_frame (rm : RMConfig) (p : Position) (price atr : ℚ)
    (action : Option Action) :
    (trailStep rm p price atr action).1.side = p.side ∧
    (trailStep rm p price atr action).1.entry_price = p.entry_price ∧
    (trailStep rm p price atr action).1.stop_loss = p.stop_loss ∧
    (trailStep rm p price atr action).1.position_size = p.position_size ∧
    (trailStep rm p price atr action).1.remaining_size = p.remaining_size ∧
    (trailStep rm p price atr action).1.tp1 = p.tp1 ∧
    (trailStep rm p price atr action).1.tp1_percent = p.tp1_percent ∧
    (trailStep rm p price atr action).1.tp2 = p.tp2 ∧
    (trailStep rm p price atr action).1.tp2_percent = p.tp2_percent := by
  unfold trailStep
  split
  · dsimp only
    split
    · exact ⟨rfl, rfl, rfl, rfl, rfl, rfl, rfl, rfl, rfl⟩
    · exact ⟨rfl, rfl, rfl, rfl, rfl, rfl, rfl, rfl, rfl⟩
  · exact ⟨rfl, rfl, rfl, rfl, rfl, rfl, rfl, rfl, rfl⟩

/-! ### Claim theorems -/

/-- C1: for every long position and every `(current_price, atr)` input,
`update_position` emits at most one lifecycle action, resolved in the
priority order stop-loss, TP1, TP2, trailing stop; in particular when
the stop-loss condition holds the emitted action is `stop_loss`, even
when a take-profit condition holds simultaneously. -/
theorem C1_update_priority (rm : RMConfig) (p : Position) (price atr : ℚ)
    (_hside : p.side = Side.long) :
    (check_stop_loss_hit price p.stop_loss p.side = true →
      (update_position rm p price atr).2 = some Action.stop_loss) ∧
    (check_stop_loss_hit price p.stop_loss p.side = false →
      pyTruthy p.tp1 = true → 0 < p.tp1_percent →
      check_take_profit_hit price (p.tp1.getD 0) p.side = true →
      (update_position rm p price atr).2 = some Action.tp1) ∧
    (check_stop_loss_hit price p.stop_loss p.side = false →
      ¬(pyTruthy p.tp1 = true ∧ 0 < p.tp1_percent ∧
          check_take_profit_hit price (p.tp1.getD 0) p.side = true) →
      pyTruthy p.tp2 = true → 0 < p.tp2_percent →
      check_take_profit_hit price (p.tp2.getD 0) p.side = true →
      (update_position rm p price atr).2 = some Action.tp2) ∧
    (check_stop_loss_hit price p.stop_loss p.side = false →
      ¬(pyTruthy p.tp1 = true ∧ 0 < p.tp1_percent ∧
          check_take_profit_hit price (p.tp1.getD 0) p.side = true) →
      ¬(pyTruthy p.tp2 = true ∧ 0 < p.tp2_percent ∧
          check_take_profit_hit price (p.tp2.getD 0) p.side = true) →
      (update_position rm p price atr).2 = none ∨
      (update_position rm p price atr).2 = some Action.trailing_stop) := by
  refine ⟨fun hsl => ?_, fun hsl h1 h2 h3 => ?_, fun hsl hno1 h1 h2 h3 => ?_,
    fun hsl hno1 hno2 => ?_⟩
  · unfold update_position
    rw [if_pos hsl]
  · unfold update_position
    rw [if_neg (by simp [hsl])]
    dsimp only
    rw [tp1Step_fires p price h1 h2 h3]
    rw [tp2Step_keeps_action]
    exact trailStep_keeps_action _ _ _ _ _
  · unfold update_position
    rw [if_neg (by simp [hsl])]
    dsimp only
    rw [tp1Step_skip p price hno1]
    rw [tp2Step_fires p price none h1 h2 h3]
    simp only [if_pos rfl]
    exact trailStep_keeps_action _ _ _ _ _
  · unfold update_position
    rw [if_neg (by simp [hsl])]
    dsimp only
    rw [tp1Step_skip p price hno1]
    rw [tp2Step_skip p price none hno2]
    exact trailStep_none_shape _ _ _ _

/-- Witness for C1: for `posA` at price `80` the stop-loss condition
and no other fires, and `stop_loss` is emitted. -/
theorem C1_update_priority_witness :
    (update_position {} posA 80 1).2 = some Action.stop_loss :=
  (C1_update_priority {} posA 80 1 rfl).1 (by decide)

/-- C2: for a long position the stored trailing stop never decreases
across `update_position` calls; on first creation it is floored at the
entry price (breakeven); and any fold of trailing updates, with
arbitrary (in particular, increasing) prices, is monotone. -/
theorem C2_trailing_monotone :
    (∀ (rm : RMConfig) (p : Position) (price atr t t' : ℚ),
        p.side = Side.long → p.trailing_stop = some t →
        (update_position rm p price atr).1.trailing_stop = some t' →
        t ≤ t') ∧
    (∀ (rm : RMConfig) (p : Position) (price atr t' : ℚ),
        p.side = Side.long → p.trailing_stop = none →
        (update_position rm p price atr).1.trailing_stop = some t' →
        p.entry_price ≤ t') ∧
    (∀ (rm : RMConfig) (entry t : ℚ) (l : List (ℚ × ℚ)),
        t ≤ trailSeqQ rm entry t l) := by
  refine ⟨fun rm p price atr t t' hside ht ht' => ?_,
    fun rm p price atr t' hside ht ht' => ?_,
    fun rm entry t l => trailSeqQ_mono rm entry l t⟩
  · rcases update_position_trail_shape rm p price atr with h | h
    · rw [ht', ht] at h
      exact le_of_eq (Option.some_injective ℚ h.symm)
    · rw [ht', hside, ht] at h
      have := calc_trail_long_mono rm p.entry_price price atr t
      rw [Option.some_injective ℚ h]
      exact this
  · rcases update_position_trail_shape rm p price atr with h | h
    · rw [ht', ht] at h
      exact absurd h (by simp)
    · rw [ht', hside, ht] at h
      rw [Option.some_injective ℚ h]
      exact calc_trail_long_floor rm p.entry_price price atr

/-- Witness for C2: updating `posB` (stored trailing stop `95`) at
price `105`, ATR `2` stores trailing stop `103 ≥ 95`; and a concrete
fold never dips below its start. -/
theorem C2_trailing_monotone_witness :
    (95 : ℚ) ≤ 103 ∧ (95 : ℚ) ≤ trailSeqQ {} 100 95 [(105, 2), (110, 2)] :=
  ⟨C2_trailing_monotone.1 {} posB 105 2 95 103 rfl rfl
      (by norm_num [update_position, tp1Step, tp2Step, trailStep,
        calculate_trailing_stop, check_stop_loss_hit, check_take_profit_hit,
        pyTruthy, posB]),
    C2_trailing_monotone.2.2 {} 100 95 [(105, 2), (110, 2)]⟩

/-- C10: when one update call reaches both armed take-profit levels
(price above the stop), both portions are released, both TPs are
disarmed and the stop moves to breakeven, yet the single reported
action is only `tp1`. -/
theorem C10_double_tp_single_action (rm : RMConfig) (p : Position)
    (price atr v1 v2 : ℚ)
    (hside : p.side = Side.long)
    (hsl : p.stop_loss < price)
    (h1 : p.tp1 = some v1) (h1n : v1 ≠ 0) (h1p : 0 < p.tp1_percent)
    (h1hit : v1 ≤ price)
    (h2 : p.tp2 = some v2) (h2n : v2 ≠ 0) (h2p : 0 < p.tp2_percent)
    (h2hit : v2 ≤ price) :
    (update_position rm p price atr).2 = some Action.tp1 ∧
    (update_position rm p price atr).1.remaining_size =
      p.remaining_size - p.position_size * (p.tp1_percent / 100)
        - p.position_size * (p.tp2_percent / 100) ∧
    (update_position rm p price atr).1.tp1 = none ∧
    (update_position rm p price atr).1.tp1_percent = 0 ∧
    (update_position rm p price atr).1.tp2 = none ∧
    (update_position rm p price atr).1.tp2_percent = 0 ∧
    (update_position rm p price atr).1.stop_loss = p.entry_price := by
  have hslB : check_stop_loss_hit price p.stop_loss p.side = false := by
    rw [hside]
    exact decide_eq_false (not_le.mpr hsl)
  have htp1 : pyTruthy p.tp1 = true := by
    rw [h1]
    exact decide_eq_true h1n
  have hhit1 : check_take_profit_hit price (p.tp1.getD 0) p.side = true := by
    rw [hside, h1]
    exact decide_eq_true h1hit
  have e1 := tp1Step_fires p price htp1 h1p hhit1
  have a1 : (tp1Step p price).2 = some Action.tp1 := by rw [e1]
  have f2 : (tp1Step p price).1.tp2 = p.tp2 := by rw [e1]
  have f2p : (tp1Step p price).1.tp2_percent = p.tp2_percent := by rw [e1]
  have fside : (tp1Step p price).1.side = p.side := by rw [e1]
  have e2 := tp2Step_fires (tp1Step p price).1 price (tp1Step p price).2
    (by rw [f2, h2]; exact decide_eq_true h2n)
    (by rw [f2p]; exact h2p)
    (by rw [fside, hside, f2, h2]; exact decide_eq_true h2hit)
  have a2 : (tp2Step (tp1Step p price).1 price (tp1Step p price).2).2 =
      some Action.tp1 := by
    rw [e2]
    rw [a1]
    rfl
  have key : update_position rm p price atr =
      trailStep rm (tp2Step (tp1Step p price).1 price (tp1Step p price).2).1
        price atr (tp2Step (tp1Step p price).1 price (tp1Step p price).2).2 := by
    unfold update_position
    rw [if_neg (by simp [hslB])]
  have g_rem : (tp2Step (tp1Step p price).1 price (tp1Step p price).2).1.remaining_size =
      p.remaining_size - p.position_size * (p.tp1_percent / 100)
        - p.position_size * (p.tp2_percent / 100) := by
    rw [e2, e1]
  have g_tp1 : (tp2Step (tp1Step p price).1 price (tp1Step p price).2).1.tp1 = none := by
    rw [e2, e1]
  have g_tp1p : (tp2Step (tp1Step p price).1 price (tp1Step p price).2).1.tp1_percent = 0 := by
    rw [e2, e1]
  have g_tp2 : (tp2Step (tp1Step p price).1 price (tp1Step p price).2).1.tp2 = none := by
    rw [e2]
  have g_tp2p : (tp2Step (tp1Step p price).1 price (tp1Step p price).2).1.tp2_percent = 0 := by
    rw [e2]
  have g_sl : (tp2Step (tp1Step p price).1 price (tp1Step p price).2).1.stop_loss =
      p.entry_price := by
    rw [e2, e1]
  obtain ⟨-, -, fr_sl, -, fr_rem, fr_tp1, fr_tp1p, fr_tp2, fr_tp2p⟩ :=
    trailStep_frame rm (tp2Step (tp1Step p price).1 price (tp1Step p price).2).1
      price atr (tp2Step (tp1Step p price).1 price (tp1Step p price).2).2
  refine ⟨?_, ?_, ?_, ?_, ?_, ?_, ?_⟩
  · rw [key, a2]
    exact trailStep_keeps_action _ _ _ _ _
  · rw [key, fr_rem, g_rem]
  · rw [key, fr_tp1, g_tp1]
  · rw [key, fr_tp1p, g_tp1p]
  · rw [key, fr_tp2, g_tp2]
  · rw [key, fr_tp2p, g_tp2p]
  · rw [key, fr_sl, g_sl]

/-- Witness for C10: `posA` at price `120` (both TP levels reached)
releases both portions in one call and still reports only `tp1`. -/
theorem C10_double_tp_single_action_witness :
    (update_position {} posA 120 1).2 = some Action.tp1 ∧
    (update_position {} posA 120 1).1.remaining_size =
      posA.remaining_size - posA.position_size * (posA.tp1_percent / 100)
        - posA.position_size * (posA.tp2_percent / 100) ∧
    (update_position {} posA 120 1).1.tp2 = none := by
  have h := C10_double_tp_single_action {} posA 120 1 110 120 rfl
    (by norm_num [posA]) rfl (by norm_num) (by norm_num [posA]) (by norm_num)
    rfl (by norm_num) (by norm_num [posA]) (by norm_num)
  exact ⟨h.1, h.2.1, h.2.2.2.2.1⟩

/-- C7 counterexample: `posA` (TP1 armed, `tp1_percent = 30`,
`remaining_size = position_size`) updated at price `120` — which is
`≥ tp1` and above the stop — satisfies every hypothesis of the claim,
yet ends with `remaining_size = 3/10`, not the claimed
`position_size − position_size × tp1_percent / 100 = 7/10`, because
TP2 is also reached in the same call. -/
theorem C7_tp1_exact_release_counterexample :
    (pyTruthy posA.tp1 = true ∧ 0 < posA.tp1_percent ∧
      posA.remaining_size = posA.position_size ∧
      posA.stop_loss < 120 ∧ posA.tp1.getD 0 ≤ (120 : ℚ)) ∧
    (update_position {} posA 120 1).1.remaining_size = 3 / 10 ∧
    posA.position_size - posA.position_size * (posA.tp1_percent / 100) = 7 / 10 ∧
    (3 / 10 : ℚ) ≠ 7 / 10 := by
  refine ⟨⟨by norm_num [posA, pyTruthy], by norm_num [posA], rfl,
    by norm_num [posA], by norm_num [posA]⟩, ?_, by norm_num [posA], by norm_num⟩
  norm_num [update_position, tp1Step, tp2Step, trailStep,
    calculate_trailing_stop, check_stop_loss_hit, check_take_profit_hit,
    pyTruthy, posA]

/-- C7 (amended): when TP1 is armed, `remaining_size = position_size`,
the price is above the stop and at or beyond TP1, and TP2 does not also
fire in the same call, the update releases exactly
`position_size × tp1_percent / 100`, disarms TP1, moves the stop to the
entry price and emits `tp1`. -/
theorem C7_tp1_release_amended (rm : RMConfig) (p : Position)
    (price atr v1 : ℚ)
    (hside : p.side = Side.long)
    (hsl : p.stop_loss < price)
    (h1 : p.tp1 = some v1) (h1n : v1 ≠ 0) (h1p : 0 < p.tp1_percent)
    (h1hit : v1 ≤ price)
    (hrem : p.remaining_size = p.position_size)
    (hno2 : ¬(pyTruthy p.tp2 = true ∧ 0 < p.tp2_percent ∧
        check_take_profit_hit price (p.tp2.getD 0) p.side = true)) :
    (update_position rm p price atr).2 = some Action.tp1 ∧
    (update_position rm p price atr).1.remaining_size =
      p.position_size - p.position_size * (p.tp1_percent / 100) ∧
    (update_position rm p price atr).1.tp1 = none ∧
    (update_position rm p price atr).1.tp1_percent = 0 ∧
    (update_position rm p price atr).1.stop_loss = p.entry_price := by
  have hslB : check_stop_loss_hit price p.stop_loss p.side = false := by
    rw [hside]
    exact decide_eq_false (not_le.mpr hsl)
  have htp1 : pyTruthy p.tp1 = true := by
    rw [h1]
    exact decide_eq_true h1n
  have hhit1 : check_take_profit_hit price (p.tp1.getD 0) p.side = true := by
    rw [hside, h1]
    exact decide_eq_true h1hit
  have e1 := tp1Step_fires p price htp1 h1p hhit1
  have a1 : (tp1Step p price).2 = some Action.tp1 := by rw [e1]
  have f2 : (tp1Step p price).1.tp2 = p.tp2 := by rw [e1]
  have f2p : (tp1Step p price).1.tp2_percent = p.tp2_percent := by rw [e1]
  have fside : (tp1Step p price).1.side = p.side := by rw [e1]
  have hno2' : ¬(pyTruthy (tp1Step p price).1.tp2 = true ∧
      0 < (tp1Step p price).1.tp2_percent ∧
      check_take_profit_hit price ((tp1Step p price).1.tp2.getD 0)
        (tp1Step p price).1.side = true) := by
    rw [f2, f2p, fside]
    exact hno2
  have e2 := tp2Step_skip (tp1Step p price).1 price (tp1Step p price).2 hno2'
  have a2 : (tp2Step (tp1Step p price).1 price (tp1Step p price).2).2 =
      some Action.tp1 := by
    rw [e2]
    exact a1
  have key : update_position rm p price atr =
      trailStep rm (tp2Step (tp1Step p price).1 price (tp1Step p price).2).1
        price atr (tp2Step (tp1Step p price).1 price (tp1Step p price).2).2 := by
    unfold update_position
    rw [if_neg (by simp [hslB])]
  have g_rem : (tp2Step (tp1Step p price).1 price (tp1Step p price).2).1.remaining_size =
      p.position_size - p.position_size * (p.tp1_percent / 100) := by
    rw [e2, e1, hrem]
  have g_tp1 : (tp2Step (tp1Step p price).1 price (tp1Step p price).2).1.tp1 = none := by
    rw [e2, e1]
  have g_tp1p : (tp2Step (tp1Step p price).1 price (tp1Step p price).2).1.tp1_percent = 0 := by
    rw [e2, e1]
  have g_sl : (tp2Step (tp1Step p price).1 price (tp1Step p price).2).1.stop_loss =
      p.entry_price := by
    rw [e2, e1]
  obtain ⟨-, -, fr_sl, -, fr_rem, fr_tp1, fr_tp1p, -, -⟩ :=
    trailStep_frame rm (tp2Step (tp1Step p price).1 price (tp1Step p price).2).1
      price atr (tp2Step (tp1Step p price).1 price (tp1Step p price).2).2
  refine ⟨?_, ?_, ?_, ?_, ?_⟩
  · rw [key, a2]
    exact trailStep_keeps_action _ _ _ _ _
  · rw [key, fr_rem, g_rem]
  · rw [key, fr_tp1, g_tp1]
  · rw [key, fr_tp1p, g_tp1p]
  · rw [key, fr_sl, g_sl]

/-- Witness for the amended C7: `posA` at price `110` (TP1 reached,
TP2 not) releases exactly 30% and emits `tp1`. -/
theorem C7_tp1_release_amended_witness :
    (update_position {} posA 110 1).2 = some Action.tp1 ∧
    (update_position {} posA 110 1).1.remaining_size =
      posA.position_size - posA.position_size * (posA.tp1_percent / 100) ∧
    (update_position {} posA 110 1).1.stop_loss = posA.entry_price := by
  have h := C7_tp1_release_amended {} posA 110 1 110 rfl
    (by norm_num [posA]) rfl (by norm_num) (by norm_num [posA]) (by norm_num)
    rfl
    (by norm_num [posA, pyTruthy, check_take_profit_hit])
  exact ⟨h.1, h.2.1, h.2.2.2.2⟩

/-- C4: for a long position, `calculate_pnl` returns
`pnl = (current_price − entry_price) × remaining_size` (so closing at
the entry price yields `0`), `pnl_percent` normalized against the
originally risked notional `(entry − initial stop) × size` with a
graceful `0` when that notional is zero, and
`rr_achieved = |current − entry| / |entry − stop_loss|` with `0` when
the risk distance is zero. -/
theorem C4_pnl_formulas (p : Position) (price stop0 : ℚ)
    (hside : p.side = Side.long)
    (hra : p.risk_amount = (p.entry_price - stop0) * p.position_size) :
    (calculate_pnl p price).pnl = (price - p.entry_price) * p.remaining_size ∧
    (price = p.entry_price → (calculate_pnl p price).pnl = 0) ∧
    (0 < (p.entry_price - stop0) * p.position_size →
      (calculate_pnl p price).pnl_percent =
        (price - p.entry_price) * p.remaining_size /
          ((p.entry_price - stop0) * p.position_size) * 100) ∧
    ((p.entry_price - stop0) * p.position_size = 0 →
      (calculate_pnl p price).pnl_percent = 0) ∧
    (p.entry_price - p.stop_loss ≠ 0 →
      (calculate_pnl p price).rr_achieved =
        |price - p.entry_price| / |p.entry_price - p.stop_loss|) ∧
    (p.entry_price - p.stop_loss = 0 →
      (calculate_pnl p price).rr_achieved = 0) := by
  refine ⟨?_, ?_, ?_, ?_, ?_, ?_⟩
  · unfold calculate_pnl
    rw [hside]
  · intro h
    unfold calculate_pnl
    rw [hside, h]
    dsimp only
    ring
  · intro h
    have h' : 0 < p.risk_amount := by
      rw [hra]
      exact h
    unfold calculate_pnl
    rw [hside]
    dsimp only
    rw [if_pos h', hra]
  · intro h
    unfold calculate_pnl
    rw [hside]
    dsimp only
    rw [if_neg]
    rw [hra, h]
    exact lt_irrefl 0
  · intro h
    have habs : 0 < |p.entry_price - p.stop_loss| := abs_pos.mpr h
    unfold calculate_pnl
    rw [hside]
    dsimp only
    rw [if_pos habs]
  · intro h
    unfold calculate_pnl
    rw [hside]
    dsimp only
    rw [if_neg]
    rw [h]
    simp

/-- Witness for C4: `posA` (risk notional `(100 − 90) × 1 = 10`) has
zero PnL back at its entry price and the stated round-trip ratios at
price `105`. -/
theorem C4_pnl_formulas_witness :
    (calculate_pnl posA 100).pnl = 0 ∧
    (calculate_pnl posA 105).pnl_percent = 5 / 10 * 100 ∧
    (calculate_pnl posA 105).rr_achieved = 5 / 10 := by
  have h1 := C4_pnl_formulas posA 100 90 rfl (by norm_num [posA])
  have h2 := C4_pnl_formulas posA 105 90 rfl (by norm_num [posA])
  refine ⟨h1.2.1 rfl, ?_, ?_⟩
  · have := h2.2.2.1 (by norm_num [posA])
    rw [this]
    norm_num [posA]
  · have := h2.2.2.2.2.1 (by norm_num [posA])
    rw [this]
    norm_num [posA]

/-- With the volume filter on and a volume column present, condition 4
holds as soon as `volume ≥ volume_ma`. -/
theorem volCondPair_fst_filter (cfg : StrategyConfig) (df : DFrame)
    (latest : Row) (v vm : ℚ)
    (hf : cfg.use_volume_filter = true) (hc : df.has_volume_col = true)
    (hv : latest.volume = some v) (hvm : latest.volume_ma = some vm)
    (hge : vm ≤ v) :
    (volCondPair cfg df latest).1 = true := by
  simp [volCondPair, hf, hc, hv, hvm, hge]

/-- The entry signal is on when all four conditions hold. -/
theorem entrySignalB_true (cfg : StrategyConfig) (df : DFrame) (latest : Row)
    (hema1 : latest.ema_short < latest.close)
    (hema2 : latest.ema_long < latest.ema_short)
    (hrsi1 : cfg.rsi_min ≤ latest.rsi) (hrsi2 : latest.rsi ≤ cfg.rsi_max)
    (hadx : cfg.adx_threshold ≤ latest.adx)
    (hvolp : (volCondPair cfg df latest).1 = true) :
    entrySignalB cfg df latest = true := by
  simp [entrySignalB, emaCondB, rsiCondB, adxCondB, hema1, hema2, hrsi1,
    hrsi2, hadx, hvolp]

/-- C5: a window shorter than the warm-up makes `check_long_entry`
return `triggered = false` with the insufficient-data reason and a
details record that is otherwise untouched — in particular no entry
legs and no indicator computation. -/
theorem C5_insufficient_data (cfg : StrategyConfig) (df : DFrame)
    (hlen : df.rows.length < warmup cfg) :
    check_long_entry cfg df =
      some (false, { reason := "Insufficient data" }) ∧
    ({ reason := "Insufficient data" } : Details).entry_1 = none ∧
    ({ reason := "Insufficient data" } : Details).entry_2 = none := by
  refine ⟨?_, rfl, rfl⟩
  unfold check_long_entry
  rw [if_pos hlen]

/-- Witness for C5: the empty frame under the default configuration. -/
theorem C5_insufficient_data_witness :
    check_long_entry {} { rows := [] } =
      some (false, { reason := "Insufficient data" }) :=
  (C5_insufficient_data {} { rows := [] } (by decide)).1

/-- C6: when all four entry conditions hold but the configured
allocation is non-positive, `check_long_entry` still returns a value
(no exception), the signal is rejected with the configuration-error
reason, and no entry legs are produced. -/
theorem C6_config_error (cfg : StrategyConfig) (df : DFrame) (latest : Row)
    (v vm : ℚ)
    (hlast : df.rows.getLast? = some latest)
    (hlen : ¬ df.rows.length < warmup cfg)
    (hema1 : latest.ema_short < latest.close)
    (hema2 : latest.ema_long < latest.ema_short)
    (hrsi1 : cfg.rsi_min ≤ latest.rsi) (hrsi2 : latest.rsi ≤ cfg.rsi_max)
    (hadx : cfg.adx_threshold ≤ latest.adx)
    (hf : cfg.use_volume_filter = true) (hc : df.has_volume_col = true)
    (hv : latest.volume = some v) (hvm : latest.volume_ma = some vm)
    (hge : vm ≤ v)
    (halloc : cfg.max_usdt_per_trade ≤ 0) :
    check_long_entry cfg df =
      some (false,
        { mkDetailsBase cfg df latest with
            reason := "MAX_USDT_PER_TRADE must be > 0 in .env file" }) ∧
    ({ mkDetailsBase cfg df latest with
        reason := "MAX_USDT_PER_TRADE must be > 0 in .env file" } : Details).entry_1
      = none ∧
    ({ mkDetailsBase cfg df latest with
        reason := "MAX_USDT_PER_TRADE must be > 0 in .env file" } : Details).entry_2
      = none := by
  have hsig := entrySignalB_true cfg df latest hema1 hema2 hrsi1 hrsi2 hadx
    (volCondPair_fst_filter cfg df latest v vm hf hc hv hvm hge)
  refine ⟨?_, rfl, rfl⟩
  unfold check_long_entry
  rw [if_neg hlen, hlast]
  dsimp only
  rw [if_pos hsig, if_pos halloc]

/-- Witness for C6: the worked-example candle with a zero allocation is
rejected with the configuration-error reason. -/
theorem C6_config_error_witness :
    check_long_entry cfgZ { rows := [rowW] } =
      some (false,
        { mkDetailsBase cfgZ { rows := [rowW] } rowW with
            reason := "MAX_USDT_PER_TRADE must be > 0 in .env file" }) :=
  (C6_config_error cfgZ { rows := [rowW] } rowW 25000 20000
    (by simp) (by decide)
    (by norm_num [rowW]) (by norm_num [rowW])
    (by norm_num [rowW, cfgZ]) (by norm_num [rowW, cfgZ])
    (by norm_num [rowW, cfgZ]) rfl rfl rfl rfl
    (by norm_num) (by norm_num [cfgZ])).1

/-- C3: when the window passes warm-up, all four entry conditions hold
and the allocation is positive, `check_long_entry` triggers with the
two-leg plan: Entry-1 at `ema_short`, Entry-2 at `ema_long`, shared
stop `ema_long − atr × sl_atr_multiplier`, sizes
`(max_usdt / close) × percent / 100`, and per-leg
`take_profit = entry + (entry − stop) × rr`. -/
theorem C3_entry_plan (cfg : StrategyConfig) (df : DFrame) (latest : Row)
    (v vm : ℚ)
    (hlast : df.rows.getLast? = some latest)
    (hlen : ¬ df.rows.length < warmup cfg)
    (_hclose : 0 < latest.close)
    (hema1 : latest.ema_short < latest.close)
    (hema2 : latest.ema_long < latest.ema_short)
    (hrsi1 : cfg.rsi_min ≤ latest.rsi) (hrsi2 : latest.rsi ≤ cfg.rsi_max)
    (hadx : cfg.adx_threshold ≤ latest.adx)
    (hf : cfg.use_volume_filter = true) (hc : df.has_volume_col = true)
    (hv : latest.volume = some v) (hvm : latest.volume_ma = some vm)
    (hge : vm ≤ v)
    (halloc : 0 < cfg.max_usdt_per_trade) :
    check_long_entry cfg df =
      some (true,
        { mkDetailsBase cfg df latest with
            entry_1 := some (entryLeg1 cfg latest)
            entry_2 := some (entryLeg2 cfg latest)
            reason := "All entry conditions met" }) ∧
    entryLeg1 cfg latest =
      { price := latest.ema_short
        position_size := cfg.max_usdt_per_trade / latest.close *
          (cfg.entry_1_percent / 100)
        stop_loss := latest.ema_long - latest.atr * cfg.sl_atr_multiplier
        take_profit := latest.ema_short +
          (latest.ema_short - (latest.ema_long - latest.atr * cfg.sl_atr_multiplier)) *
            cfg.tp1_rr
        risk_reward := cfg.tp1_rr } ∧
    entryLeg2 cfg latest =
      { price := latest.ema_long
        position_size := cfg.max_usdt_per_trade / latest.close *
          (cfg.entry_2_percent / 100)
        stop_loss := latest.ema_long - latest.atr * cfg.sl_atr_multiplier
        take_profit := latest.ema_long +
          (latest.ema_long - (latest.ema_long - latest.atr * cfg.sl_atr_multiplier)) *
            cfg.tp2_rr
        risk_reward := cfg.tp2_rr } := by
  have hsig := entrySignalB_true cfg df latest hema1 hema2 hrsi1 hrsi2 hadx
    (volCondPair_fst_filter cfg df latest v vm hf hc hv hvm hge)
  refine ⟨?_, rfl, rfl⟩
  unfold check_long_entry
  rw [if_neg hlen, hlast]
  dsimp only
  rw [if_pos hsig, if_neg (not_le.mpr halloc)]

/-- Witness for C3: the spec's worked example triggers, with
`stop_loss = 141.25 = 565/4`, Entry-1 at 148, Entry-2 at 145. -/
theorem C3_entry_plan_witness :
    check_long_entry cfgW { rows := [rowW] } =
      some (true,
        { mkDetailsBase cfgW { rows := [rowW] } rowW with
            entry_1 := some (entryLeg1 cfgW rowW)
            entry_2 := some (entryLeg2 cfgW rowW)
            reason := "All entry conditions met" }) ∧
    entryLeg1 cfgW rowW =
      { price := 148, position_size := 2, stop_loss := 565/4,
        take_profit := 619/4, risk_reward := 1 } ∧
    entryLeg2 cfgW rowW =
      { price := 145, position_size := 14/3, stop_loss := 565/4,
        take_profit := 305/2, risk_reward := 2 } := by
  have h := C3_entry_plan cfgW { rows := [rowW] } rowW 25000 20000
    (by simp) (by decide)
    (by norm_num [rowW]) (by norm_num [rowW]) (by norm_num [rowW])
    (by norm_num [rowW, cfgW]) (by norm_num [rowW, cfgW])
    (by norm_num [rowW, cfgW]) rfl rfl rfl rfl
    (by norm_num) (by norm_num [cfgW])
  refine ⟨h.1, ?_, ?_⟩
  · simp only [entryLeg1, sharedStop, cfgW, rowW, EntryLeg.mk.injEq]
    norm_num
  · simp only [entryLeg2, sharedStop, cfgW, rowW, EntryLeg.mk.injEq]
    norm_num

/-- C8: the live-price refinement step never alters the entry legs or
any other decision field: it only fills the annotation fields
(`warning`, `entry_status`, `live_price`, `last_candle_price`,
`price_change_pct`). -/
theorem C8_live_refinement_frame (latest : Row) (details : Details)
    (live_price : ℚ) :
    (recalculate_with_live_price latest details live_price).entry_1 =
      details.entry_1 ∧
    (recalculate_with_live_price latest details live_price).entry_2 =
      details.entry_2 ∧
    (recalculate_with_live_price latest details live_price).price =
      details.price ∧
    (recalculate_with_live_price latest details live_price).ema_short =
      details.ema_short ∧
    (recalculate_with_live_price latest details live_price).ema_long =
      details.ema_long ∧
    (recalculate_with_live_price latest details live_price).signal =
      details.signal ∧
    (recalculate_with_live_price latest details live_price).reason =
      details.reason := by
  unfold recalculate_with_live_price
  dsimp only
  split
  · exact ⟨rfl, rfl, rfl, rfl, rfl, rfl, rfl⟩
  · exact ⟨rfl, rfl, rfl, rfl, rfl, rfl, rfl⟩

/-- C9 counterexample: with the live price exactly at the short EMA
(`live = ema_short = 100`) the code classifies the entry zone as
marginal ("Near entry zone"), not as good ("In entry zone") — the
claim's "at or below the short EMA = good" fails at equality. -/
theorem C9_entry_zone_counterexample :
    (100 : ℚ) ≤ rowZ.ema_short ∧
    (recalculate_with_live_price rowZ {} 100).entry_status =
      some nearZoneMsg ∧
    nearZoneMsg ≠ inZoneMsg := by
  refine ⟨by norm_num [rowZ], ?_, by decide⟩
  norm_num [recalculate_with_live_price, rowZ]

/-- C9 (amended): the entry zone is good exactly for a live price
strictly below the short EMA, marginal from the EMA up to (strictly
below) 2% above it, and an unfavorable chase at or beyond 2% above;
the volatility warning is attached exactly when the absolute
percentage deviation from the candle close exceeds 5%. -/
theorem C9_entry_zone_amended (latest : Row) (details : Details)
    (live_price : ℚ)
    (_hclose : 0 < latest.close)
    (hw : details.warning = none) :
    (live_price < latest.ema_short →
      (recalculate_with_live_price latest details live_price).entry_status =
        some inZoneMsg) ∧
    (latest.ema_short ≤ live_price →
      live_price < latest.ema_short * (102 / 100) →
      (recalculate_with_live_price latest details live_price).entry_status =
        some nearZoneMsg) ∧
    (latest.ema_short ≤ live_price →
      latest.ema_short * (102 / 100) ≤ live_price →
      (recalculate_with_live_price latest details live_price).entry_status =
        some aboveZoneMsg) ∧
    ((recalculate_with_live_price latest details live_price).warning =
        some volatilityMsg ↔
      5 < |(live_price - latest.close) / latest.close * 100|) := by
  refine ⟨fun h => ?_, fun h1 h2 => ?_, fun h1 h3 => ?_, ?_⟩
  · unfold recalculate_with_live_price
    dsimp only
    rw [if_pos h]
  · unfold recalculate_with_live_price
    dsimp only
    rw [if_neg (not_lt.mpr h1), if_pos h2]
  · unfold recalculate_with_live_price
    dsimp only
    rw [if_neg (not_lt.mpr h1), if_neg (not_lt.mpr h3)]
  · unfold recalculate_with_live_price
    dsimp only
    by_cases hc : 5 < |(live_price - latest.close) / latest.close * 100|
    · rw [if_pos hc]
      simp [hc]
    · rw [if_neg hc]
      simp [hw, hc]

/-- Witness for the amended C9: at live price `94` against `rowZ` the
zone is good (strictly below the EMA) and the −6% move produces the
volatility warning. -/
theorem C9_entry_zone_amended_witness :
    (recalculate_with_live_price rowZ {} 94).entry_status = some inZoneMsg ∧
    (recalculate_with_live_price rowZ {} 94).warning = some volatilityMsg := by
  have h := C9_entry_zone_amended rowZ {} 94 (by norm_num [rowZ]) rfl
  exact ⟨h.1 (by norm_num [rowZ]), h.2.2.2.mpr (by norm_num [rowZ])⟩

end MaLong
